import Mathlib

/-!
# Verification of the Zonis Router / Client / Server against its specification

A shallow embedding of the relevant parts of `src/zonis/router.py`,
`src/zonis/client.py` and `src/zonis/server.py`.  Python dictionaries are
modelled as association lists, the asyncio outbound queue as a FIFO list,
the pending-future map `_futures` as the list of pending packet ids plus a
ledger of `set_result` calls, and the transport as the trace of
`websocket_connection.send` calls.  Raised Python exceptions are modelled
with `Except`.
-/

namespace Zonis

/-- JSON-like values: the opaque structured payloads carried in the `data`
field of packets. -/
inductive JVal where
  | null
  | str (s : String)
  | num (n : Int)
  | obj (fields : List (String × JVal))

/-- An outbound envelope as constructed by `Router.send` /
`Router.send_response` (`PacketT` in `router.py`): those constructors always
populate all three keys. -/
structure Envelope where
  packet_id : String
  type : String
  data : JVal

/-- An inbound frame as seen by `Router._resolve_future` after JSON
decoding: any of the three keys may be absent. -/
structure RawPacket where
  packet_id : Option String
  type : Option String
  data : Option JVal

/-- Items of `Router._item_queue`: tagged tuples
`("SEND_THEN_RECEIVE_RESPONSE", dict)`, `("SEND_RESPONSE", dict)` and the
`("CLOSE_FUTURE",)` sentinel. -/
inductive QueueItem where
  | sendThenReceiveResponse (e : Envelope)
  | sendResponse (e : Envelope)
  | closeFuture

/-- The exceptions raised by the embedded code paths. -/
inductive ZErr where
  | unknownPacket
  | missingReceiveHandler
  | keyError
  | valueError
  | baseZonisException
  | unknownClient
  deriving DecidableEq

/-- The observable state of one `Router`.

* `is_open` — `self.__is_open`;
* `futures` — the keys of `self._futures` (the pending slots);
* `resolved` — the ledger of `future.set_result(data)` calls made by
  `_resolve_future` (each entry is `(packet_id, data)`);
* `item_queue` — `self._item_queue`, head = front of the FIFO;
* `wire` — the trace of `self._websocket_connection.send(...)` calls made
  by `_dispatch_future`, in order;
* `has_receive_handler` — whether `self._receive_handler` is set;
* `spawned` — the receive-handler tasks spawned by `_resolve_future` for
  inbound requests, as `(packet_id, data)` pairs;
* `warnings` — the number of congestion warnings logged by
  `_check_for_congestion`;
* `block_resolved` — whether `self._block_future` has had its result set. -/
@[ext]
structure RouterState where
  is_open : Bool
  futures : List String
  resolved : List (String × JVal)
  item_queue : List QueueItem
  wire : List Envelope
  has_receive_handler : Bool
  spawned : List (String × JVal)
  warnings : Nat
  block_resolved : Bool

namespace Router

/-- The state set up by `Router.__init__`. -/
def init : RouterState :=
  { is_open := true
    futures := []
    resolved := []
    item_queue := []
    wire := []
    has_receive_handler := false
    spawned := []
    warnings := 0
    block_resolved := false }

/-- `Router._check_for_congestion`: logs a warning whenever the queue size
is over 50 at the moment of the check. -/
def check_for_congestion (s : RouterState) : RouterState :=
  if 50 < s.item_queue.length then { s with warnings := s.warnings + 1 } else s

/-- `Router.send`: records the pending slot in `_futures`, enqueues a
`SEND_THEN_RECEIVE_RESPONSE` item carrying
`{"packet_id": packet_id, "type": "request", "data": data}`, and checks for
congestion.  There is no open-state check and nothing is raised. -/
def send (s : RouterState) (packet_id : String) (data : JVal) : RouterState :=
  check_for_congestion
    { s with
      futures := s.futures ++ [packet_id]
      item_queue := s.item_queue ++
        [QueueItem.sendThenReceiveResponse ⟨packet_id, "request", data⟩] }

/-- `Router.send_response`: enqueues a `SEND_RESPONSE` item carrying
`{"type": "response", "packet_id": packet_id, "data": data}` where a `None`
data defaults to `{}`.  No open-state check, nothing raised. -/
def send_response (s : RouterState) (packet_id : String) (data : Option JVal) :
    RouterState :=
  check_for_congestion
    { s with
      item_queue := s.item_queue ++
        [QueueItem.sendResponse ⟨packet_id, "response", data.getD (JVal.obj [])⟩] }

/-- `Router.close`: enqueues the `CLOSE_FUTURE` sentinel and checks for
congestion.  It does not itself change `__is_open` or `_block_future`. -/
def close (s : RouterState) : RouterState :=
  check_for_congestion { s with item_queue := s.item_queue ++ [QueueItem.closeFuture] }

/-- `Router._dispatch_future`: sends the queued dict down the wire.  The
source first raises `UnknownPacket` when the dict lacks `"packet_id"`, but
every dict placed on the queue by `send`/`send_response` carries one, so on
queue-sourced items the guard cannot fire and the envelope is written. -/
def dispatch_future (s : RouterState) (e : Envelope) : RouterState :=
  { s with wire := s.wire ++ [e] }

/-- `Router._resolve_future`: validates the presence of `type`, `data` and
`packet_id` (in that order, raising `UnknownPacket` on the first missing
field); for a `response` pops the matching pending slot (raising
`UnknownPacket` when there is none) and sets the future's result; otherwise
spawns the registered receive handler (raising `MissingReceiveHandler` when
none is registered). -/
def resolve_future (s : RouterState) (p : RawPacket) : Except ZErr RouterState :=
  match p.type with
  | none => .error .unknownPacket
  | some ptype =>
    match p.data with
    | none => .error .unknownPacket
    | some pdata =>
      match p.packet_id with
      | none => .error .unknownPacket
      | some pid =>
        if ptype = "response" then
          if pid ∈ s.futures then
            .ok { s with
              futures := s.futures.erase pid
              resolved := s.resolved ++ [(pid, pdata)] }
          else .error .unknownPacket
        else
          if s.has_receive_handler then
            .ok { s with spawned := s.spawned ++ [(pid, pdata)] }
          else .error .missingReceiveHandler

/-- The events one iteration of the `_handle_pipe` loop can be woken by:
the queue task completing, the websocket receive task yielding a decoded
frame, or the websocket receive task raising. -/
inductive LoopEvent where
  | queueItem
  | wsMsg (p : RawPacket)
  | wsErr

/-- How `_handle_pipe` terminates: returning `_EXIT_LITERAL` after the
`CLOSE_FUTURE` sentinel, or returning `None` (either the `while` guard went
false or an exception escaped the loop body and was logged by the
`except Exception` clause wrapping the whole loop). -/
inductive PipeOutcome where
  | exitLiteral
  | exitNone
  deriving DecidableEq

/-- The result of one loop iteration: continue with a new state, or
terminate the coroutine. -/
inductive StepResult where
  | next (s : RouterState)
  | exit (s : RouterState) (o : PipeOutcome)

/-- One iteration of the `while self.__is_open` loop of
`Router._handle_pipe`, woken by `e`.  The `try` wraps the whole loop, so an
exception raised by `_resolve_future` (or by the receive task itself) is
caught outside the loop: the iteration terminates the coroutine with a
`None` return, not a retry. -/
def pipe_step (s : RouterState) (e : LoopEvent) : StepResult :=
  if s.is_open then
    match e with
    | .wsErr => .exit s .exitNone
    | .wsMsg p =>
      match resolve_future s p with
      | .ok s' => .next s'
      | .error _ => .exit s .exitNone
    | .queueItem =>
      match s.item_queue with
      | [] => .next s
      | item :: rest =>
        match item with
        | .closeFuture =>
          .exit { s with item_queue := rest, is_open := false } .exitLiteral
        | .sendResponse env => .next (dispatch_future { s with item_queue := rest } env)
        | .sendThenReceiveResponse env =>
          .next (dispatch_future { s with item_queue := rest } env)
  else .exit s .exitNone

/-- Runs `_handle_pipe` over a schedule of wake-up events; `none` means the
loop is still awaiting when the schedule ends. -/
def runPipe (s : RouterState) : List LoopEvent → RouterState × Option PipeOutcome
  | [] => (s, none)
  | e :: rest =>
    match pipe_step s e with
    | .next s' => runPipe s' rest
    | .exit s' o => (s', some o)

/-- The tail of one `_handle_ws` reconnect iteration (client side), entered
once `_handle_pipe` has returned `o`: `break` when the result equals
`_EXIT_LITERAL`, then the `finally` clause increments
`_attempted_connection_count` and `break`s when the retry budget is
exceeded; leaving the `async for` resolves `_block_future`.  `Sum.inl`
carries the state and new attempt count into the next reconnect iteration;
`Sum.inr` is the loop exiting with the block future resolved. -/
def handle_ws_post (retryOnExc : Bool) (maxRetries : Nat) (s : RouterState)
    (o : PipeOutcome) (attemptedCount : Nat) : (RouterState × Nat) ⊕ RouterState :=
  let count := attemptedCount + 1
  if o = PipeOutcome.exitLiteral ∨ (retryOnExc = true ∧ maxRetries < count) then
    Sum.inr { s with block_resolved := true }
  else Sum.inl (s, count)

/-- `close()` called `n` times in a row. -/
def closeN (n : Nat) (s : RouterState) : RouterState :=
  match n with
  | 0 => s
  | m + 1 => close (closeN m s)

end Router

/-! ## Client (`src/zonis/client.py`) -/

/-- The decoded payload a resolved request future yields inside
`Client.request` (`json.loads(d)` then `packet["type"]` /
`packet["data"]`). -/
structure ClientPacket where
  type : String
  data : JVal

/-- The `ClientToServerPacket(identifier=..., type="CLIENT_REQUEST",
data=RequestPacket(route=..., arguments=...))` dict that `Client.request`
passes to `Router.send`. -/
def clientToServerPayload (identifier route : String) (args : JVal) : JVal :=
  JVal.obj
    [("identifier", JVal.str identifier),
     ("type", JVal.str "CLIENT_REQUEST"),
     ("data", JVal.obj [("route", JVal.str route), ("arguments", args)])]

namespace Client

/-- `Client.request` (src/zonis/client.py lines 219-236): wraps the route
and arguments in a `ClientToServerPacket` handed to `Router.send`, and —
once the future resolves and its value decodes to `resp` — raises
`ValueError` unless `resp.type` equals `"CLIENT_REQUEST_RESPONSE"`, else
returns `resp.data`. -/
def request (s : RouterState) (packet_id identifier route : String)
    (args : JVal) (resp : ClientPacket) : RouterState × Except ZErr JVal :=
  let s1 := Router.send s packet_id (clientToServerPayload identifier route args)
  if resp.type = "CLIENT_REQUEST_RESPONSE" then (s1, .ok resp.data)
  else (s1, .error .valueError)

end Client

/-! ## Association-list operations mirroring Python dict semantics -/

/-- `d.get(k)` / `d[k]` lookup on an association list. -/
def alookup {α : Type} (k : String) : List (String × α) → Option α
  | [] => none
  | (k', v) :: rest => if k' = k then some v else alookup k rest

/-- In-place mutation of the object stored at key `k` (Python objects are
heap references, so every list entry holding `k` observes the update). -/
def aupdate {α : Type} (k : String) (f : α → α) :
    List (String × α) → List (String × α)
  | [] => []
  | (k', v) :: rest =>
    if k' = k then (k', f v) :: aupdate k f rest
    else (k', v) :: aupdate k f rest

/-- `d.pop(k)` / `d.pop(k, None)`: removes the first entry for `k`. -/
def aerase {α : Type} (k : String) : List (String × α) → List (String × α)
  | [] => []
  | (k', v) :: rest => if k' = k then rest else (k', v) :: aerase k rest

/-- `d[k] = v`: replaces the value at an existing key in place, appends a
new entry otherwise. -/
def ainsert {α : Type} (k : String) (v : α) :
    List (String × α) → List (String × α)
  | [] => [(k, v)]
  | (k', v') :: rest =>
    if k' = k then (k, v) :: rest else (k', v') :: ainsert k v rest

/-- Number of entries for key `k`. -/
def countk {α : Type} (k : String) : List (String × α) → Nat
  | [] => 0
  | (k', _) :: rest => (if k' = k then 1 else 0) + countk k rest

/-! ## Server (`src/zonis/server.py`) -/

/-- The observable state of a `Server`.  `routers` is the heap of `Router`
objects keyed by their `_router_id`; `connections` is `self._connections`,
mapping client identifiers to router ids. -/
@[ext]
structure ServerState where
  routers : List (String × RouterState)
  connections : List (String × String)
  secret_key : String
  override_key : String

/-- The inner `IdentifyDataPacket` `{secret_key, override_key?}`. -/
structure IdentifyData where
  secret_key : String
  override_key : Option String

/-- The identify request as read by `Server.parse_identify`:
`raw_packet["packet_id"]` plus the inner packet's `identifier`, `type` and
`data` fields. -/
structure IdentifyEnvelope where
  packet_id : String
  identifier : String
  ws_type : String
  data : IdentifyData

/-- Python truthiness of the `override_key` value as tested by
`not override_key`: `None` and the empty string are falsy. -/
def pyTruthy (o : Option String) : Bool :=
  match o with
  | none => false
  | some st => st != ""

/-- The acknowledgment payload
`Packet(identifier=identifier, type="IDENTIFY", data=None)`. -/
def identifyAck (identifier : String) : JVal :=
  JVal.obj
    [("identifier", JVal.str identifier),
     ("type", JVal.str "IDENTIFY"),
     ("data", JVal.null)]

namespace Server

/-- `Server.disconnect` (src/zonis/server.py lines 52-67):
`self._connections.pop(identifier)` — raising `KeyError` when the
identifier is absent — followed by `await router.close()` on the popped
router. -/
def disconnect (sv : ServerState) (identifier : String) :
    Except ZErr ServerState :=
  match alookup identifier sv.connections with
  | none => .error .keyError
  | some rid =>
    .ok { sv with
      connections := aerase identifier sv.connections
      routers := aupdate rid Router.close sv.routers }

/-- `Server.parse_identify` (src/zonis/server.py lines 173-237).  `newRid`
stands for the fresh `_router_id` of the `Router` constructed on line 225.
Every raise inside the `try` lands in the `except` clause, which executes
`self._connections.pop(identifier, None)` and raises
`BaseZonisException("Identify failed")`; the returned state therefore
carries that pop on the error paths.  On success: build the new `Router`,
`register_receiver`, `connect_server` (spawns the pipe task), store it in
`self._connections[identifier]`, and acknowledge with `send_response` on
the new router.  The pre-existing router for `identifier`, if any, is never
touched. -/
def parse_identify (sv : ServerState) (p : IdentifyEnvelope) (newRid : String) :
    ServerState × Except ZErr String :=
  if p.ws_type != "IDENTIFY" then
    ({ sv with connections := aerase p.identifier sv.connections },
      .error .baseZonisException)
  else if p.data.secret_key != sv.secret_key then
    ({ sv with connections := aerase p.identifier sv.connections },
      .error .baseZonisException)
  else if (alookup p.identifier sv.connections).isSome &&
      (!pyTruthy p.data.override_key ||
        p.data.override_key != some sv.override_key) then
    ({ sv with connections := aerase p.identifier sv.connections },
      .error .baseZonisException)
  else
    let newRouter : RouterState := { Router.init with has_receive_handler := true }
    let sv1 : ServerState :=
      { sv with
        routers := sv.routers ++ [(newRid, newRouter)]
        connections := ainsert p.identifier newRid sv.connections }
    let sv2 : ServerState :=
      { sv1 with
        routers := aupdate newRid
          (fun r => Router.send_response r p.packet_id (some (identifyAck p.identifier)))
          sv1.routers }
    (sv2, .ok p.identifier)

end Server

/-! ## Call sequences against one Router (for the ordering property) -/

/-- One outbound call issued in program order on a Router: either
`await router.send(...)` or `await router.send_response(...)`. -/
inductive RouterCall where
  | request (packet_id : String) (data : JVal)
  | response (packet_id : String) (data : Option JVal)

/-- The envelope the call puts on the wire. -/
def RouterCall.envelope : RouterCall → Envelope
  | .request pid d => ⟨pid, "request", d⟩
  | .response pid d => ⟨pid, "response", d.getD (JVal.obj [])⟩

/-- The queue item the call enqueues. -/
def RouterCall.item : RouterCall → QueueItem
  | .request pid d => QueueItem.sendThenReceiveResponse ⟨pid, "request", d⟩
  | .response pid d => QueueItem.sendResponse ⟨pid, "response", d.getD (JVal.obj [])⟩

/-- Performing the call on the Router state. -/
def RouterCall.apply (s : RouterState) : RouterCall → RouterState
  | .request pid d => Router.send s pid d
  | .response pid d => Router.send_response s pid d

/-- A sequence of `send` / `send_response` calls in program order. -/
def performCalls (s : RouterState) : List RouterCall → RouterState
  | [] => s
  | c :: rest => performCalls (c.apply s) rest

/-- The envelope a queue item makes `_dispatch_future` write, if any. -/
def QueueItem.sent : QueueItem → Option Envelope
  | .sendThenReceiveResponse e => some e
  | .sendResponse e => some e
  | .closeFuture => none

/-! ## Basic lemmas about the Router operations -/

namespace Router

@[simp] theorem check_for_congestion_is_open (s : RouterState) :
    (check_for_congestion s).is_open = s.is_open := by
  unfold check_for_congestion; split <;> rfl

@[simp] theorem check_for_congestion_futures (s : RouterState) :
    (check_for_congestion s).futures = s.futures := by
  unfold check_for_congestion; split <;> rfl

@[simp] theorem check_for_congestion_resolved (s : RouterState) :
    (check_for_congestion s).resolved = s.resolved := by
  unfold check_for_congestion; split <;> rfl

@[simp] theorem check_for_congestion_item_queue (s : RouterState) :
    (check_for_congestion s).item_queue = s.item_queue := by
  unfold check_for_congestion; split <;> rfl

@[simp] theorem check_for_congestion_wire (s : RouterState) :
    (check_for_congestion s).wire = s.wire := by
  unfold check_for_congestion; split <;> rfl

@[simp] theorem check_for_congestion_block_resolved (s : RouterState) :
    (check_for_congestion s).block_resolved = s.block_resolved := by
  unfold check_for_congestion; split <;> rfl

@[simp] theorem check_for_congestion_spawned (s : RouterState) :
    (check_for_congestion s).spawned = s.spawned := by
  unfold check_for_congestion; split <;> rfl

@[simp] theorem check_for_congestion_has_receive_handler (s : RouterState) :
    (check_for_congestion s).has_receive_handler = s.has_receive_handler := by
  unfold check_for_congestion; split <;> rfl

theorem check_for_congestion_warnings (s : RouterState) :
    (check_for_congestion s).warnings =
      s.warnings + (if 50 < s.item_queue.length then 1 else 0) := by
  unfold check_for_congestion; split <;> simp

@[simp] theorem send_futures (s : RouterState) (pid : String) (d : JVal) :
    (send s pid d).futures = s.futures ++ [pid] := by
  simp [send]

@[simp] theorem send_item_queue (s : RouterState) (pid : String) (d : JVal) :
    (send s pid d).item_queue =
      s.item_queue ++ [QueueItem.sendThenReceiveResponse ⟨pid, "request", d⟩] := by
  simp [send]

@[simp] theorem send_wire (s : RouterState) (pid : String) (d : JVal) :
    (send s pid d).wire = s.wire := by
  simp [send]

@[simp] theorem send_is_open (s : RouterState) (pid : String) (d : JVal) :
    (send s pid d).is_open = s.is_open := by
  simp [send]

@[simp] theorem send_resolved (s : RouterState) (pid : String) (d : JVal) :
    (send s pid d).resolved = s.resolved := by
  simp [send]

@[simp] theorem send_block_resolved (s : RouterState) (pid : String) (d : JVal) :
    (send s pid d).block_resolved = s.block_resolved := by
  simp [send]

@[simp] theorem send_response_item_queue (s : RouterState) (pid : String)
    (d : Option JVal) :
    (send_response s pid d).item_queue =
      s.item_queue ++ [QueueItem.sendResponse ⟨pid, "response", d.getD (JVal.obj [])⟩] := by
  simp [send_response]

@[simp] theorem send_response_futures (s : RouterState) (pid : String)
    (d : Option JVal) :
    (send_response s pid d).futures = s.futures := by
  simp [send_response]

@[simp] theorem send_response_wire (s : RouterState) (pid : String)
    (d : Option JVal) :
    (send_response s pid d).wire = s.wire := by
  simp [send_response]

@[simp] theorem send_response_is_open (s : RouterState) (pid : String)
    (d : Option JVal) :
    (send_response s pid d).is_open = s.is_open := by
  simp [send_response]

@[simp] theorem close_item_queue (s : RouterState) :
    (close s).item_queue = s.item_queue ++ [QueueItem.closeFuture] := by
  simp [close]

@[simp] theorem close_is_open (s : RouterState) :
    (close s).is_open = s.is_open := by
  simp [close]

@[simp] theorem close_block_resolved (s : RouterState) :
    (close s).block_resolved = s.block_resolved := by
  simp [close]

@[simp] theorem close_futures (s : RouterState) :
    (close s).futures = s.futures := by
  simp [close]

@[simp] theorem close_wire (s : RouterState) :
    (close s).wire = s.wire := by
  simp [close]

theorem closeN_item_queue (n : Nat) (s : RouterState) :
    (closeN n s).item_queue =
      s.item_queue ++ List.replicate n QueueItem.closeFuture := by
  induction n with
  | zero => simp [closeN]
  | succ m ih =>
    simp [closeN, ih, List.replicate_succ', List.append_assoc]

@[simp] theorem closeN_is_open (n : Nat) (s : RouterState) :
    (closeN n s).is_open = s.is_open := by
  induction n with
  | zero => rfl
  | succ m ih => simp [closeN, ih]

@[simp] theorem closeN_block_resolved (n : Nat) (s : RouterState) :
    (closeN n s).block_resolved = s.block_resolved := by
  induction n with
  | zero => rfl
  | succ m ih => simp [closeN, ih]

end Router

/-! ## Lemmas about the association-list operations -/

theorem alookup_eq_none_of_not_mem {α : Type} (k : String)
    (l : List (String × α)) (h : k ∉ l.map Prod.fst) : alookup k l = none := by
  induction l with
  | nil => rfl
  | cons kv rest ih =>
    obtain ⟨k', v⟩ := kv
    simp only [List.map_cons, List.mem_cons, not_or] at h
    simp only [alookup]
    rw [if_neg (fun he => h.1 he.symm), ih h.2]

theorem alookup_ainsert_self {α : Type} (k : String) (v : α)
    (l : List (String × α)) : alookup k (ainsert k v l) = some v := by
  induction l with
  | nil => simp [ainsert, alookup]
  | cons kv rest ih =>
    obtain ⟨k', v'⟩ := kv
    by_cases h : k' = k
    · simp [ainsert, alookup, h]
    · simp [ainsert, alookup, h, ih]

theorem alookup_aupdate_self {α : Type} (k : String) (f : α → α)
    (l : List (String × α)) :
    alookup k (aupdate k f l) = (alookup k l).map f := by
  induction l with
  | nil => rfl
  | cons kv rest ih =>
    obtain ⟨k', v⟩ := kv
    by_cases h : k' = k
    · simp [aupdate, alookup, h]
    · simp [aupdate, alookup, h, ih]

theorem alookup_aupdate_ne {α : Type} (k k₂ : String) (h : k ≠ k₂) (f : α → α)
    (l : List (String × α)) : alookup k (aupdate k₂ f l) = alookup k l := by
  induction l with
  | nil => rfl
  | cons kv rest ih =>
    obtain ⟨k', v⟩ := kv
    by_cases h' : k' = k₂
    · subst h'
      have hne : ¬ k' = k := fun he => h (he ▸ rfl)
      simp [aupdate, alookup, hne, ih]
    · simp [aupdate, alookup, h', ih]

theorem alookup_snoc_ne {α : Type} (k k₂ : String) (v : α) (h : k ≠ k₂)
    (l : List (String × α)) : alookup k (l ++ [(k₂, v)]) = alookup k l := by
  induction l with
  | nil =>
    simp only [List.nil_append, alookup]
    rw [if_neg (fun he => h he.symm)]
  | cons kv rest ih =>
    obtain ⟨k', v'⟩ := kv
    by_cases h' : k' = k
    · simp [alookup, h']
    · simp [alookup, h', ih]

theorem alookup_aerase_self {α : Type} (k : String) (l : List (String × α))
    (hnd : (l.map Prod.fst).Nodup) : alookup k (aerase k l) = none := by
  induction l with
  | nil => rfl
  | cons kv rest ih =>
    obtain ⟨k', v⟩ := kv
    simp only [List.map_cons, List.nodup_cons] at hnd
    by_cases h : k' = k
    · subst h
      simpa [aerase] using alookup_eq_none_of_not_mem k' rest hnd.1
    · simp [aerase, alookup, h, ih hnd.2]

theorem countk_eq_zero_of_not_mem {α : Type} (k : String)
    (l : List (String × α)) (h : k ∉ l.map Prod.fst) : countk k l = 0 := by
  induction l with
  | nil => rfl
  | cons kv rest ih =>
    obtain ⟨k', v⟩ := kv
    simp only [List.map_cons, List.mem_cons, not_or] at h
    simp only [countk]
    rw [if_neg (fun he => h.1 he.symm), ih h.2]

theorem countk_ainsert_nodup {α : Type} (k : String) (v : α)
    (l : List (String × α)) (hnd : (l.map Prod.fst).Nodup) :
    countk k (ainsert k v l) = 1 := by
  induction l with
  | nil => simp [ainsert, countk]
  | cons kv rest ih =>
    obtain ⟨k', v'⟩ := kv
    simp only [List.map_cons, List.nodup_cons] at hnd
    by_cases h : k' = k
    · subst h
      simp [ainsert, countk, countk_eq_zero_of_not_mem k' rest hnd.1]
    · simp [ainsert, countk, h, ih hnd.2]

/-! ## Lemmas about the pipe loop -/

theorem erase_snoc_self (pid : String) (l : List String) (h : pid ∉ l) :
    (l ++ [pid]).erase pid = l := by
  induction l with
  | nil => simp
  | cons x rest ih =>
    simp only [List.mem_cons, not_or] at h
    have hx : (x == pid) = false := beq_eq_false_iff_ne.mpr (fun he => h.1 he.symm)
    simp [List.erase_cons, hx, ih h.2]

theorem resolve_future_is_open {s s' : RouterState} {p : RawPacket}
    (h : Router.resolve_future s p = .ok s') : s'.is_open = s.is_open := by
  obtain ⟨pid, ty, da⟩ := p
  cases ty with
  | none => simp [Router.resolve_future] at h
  | some ty =>
    cases da with
    | none => simp [Router.resolve_future] at h
    | some da =>
      cases pid with
      | none => simp [Router.resolve_future] at h
      | some pid =>
        simp only [Router.resolve_future] at h
        split at h
        · split at h
          · injection h with h; subst h; rfl
          · simp at h
        · split at h
          · injection h with h; subst h; rfl
          · simp at h

theorem pipe_step_close_head (t : RouterState) (rest : List QueueItem)
    (hopen : t.is_open = true) (hq : t.item_queue = QueueItem.closeFuture :: rest) :
    Router.pipe_step t Router.LoopEvent.queueItem =
      Router.StepResult.exit { t with item_queue := rest, is_open := false }
        Router.PipeOutcome.exitLiteral := by
  simp [Router.pipe_step, hopen, hq]

theorem pipe_step_send_head (t : RouterState) (i : QueueItem)
    (rest : List QueueItem) (e : Envelope) (hopen : t.is_open = true)
    (hq : t.item_queue = i :: rest) (hi : QueueItem.sent i = some e) :
    Router.pipe_step t Router.LoopEvent.queueItem =
      Router.StepResult.next { t with item_queue := rest, wire := t.wire ++ [e] } := by
  cases i with
  | closeFuture => simp [QueueItem.sent] at hi
  | sendResponse env =>
    injection hi with hi
    subst hi
    simp [Router.pipe_step, hopen, hq, Router.dispatch_future]
  | sendThenReceiveResponse env =>
    injection hi with hi
    subst hi
    simp [Router.pipe_step, hopen, hq, Router.dispatch_future]

theorem performCalls_item_queue (calls : List RouterCall) (s : RouterState) :
    (performCalls s calls).item_queue =
      s.item_queue ++ calls.map RouterCall.item := by
  induction calls generalizing s with
  | nil => simp [performCalls]
  | cons c rest ih =>
    cases c <;>
      simp [performCalls, RouterCall.apply, RouterCall.item, ih, List.append_assoc]

theorem performCalls_wire (calls : List RouterCall) (s : RouterState) :
    (performCalls s calls).wire = s.wire := by
  induction calls generalizing s with
  | nil => rfl
  | cons c rest ih =>
    cases c <;> simp [performCalls, RouterCall.apply, ih]

theorem performCalls_is_open (calls : List RouterCall) (s : RouterState) :
    (performCalls s calls).is_open = s.is_open := by
  induction calls generalizing s with
  | nil => rfl
  | cons c rest ih =>
    cases c <;> simp [performCalls, RouterCall.apply, ih]

theorem filterMap_sent_map_item (calls : List RouterCall) :
    (calls.map RouterCall.item).filterMap QueueItem.sent =
      calls.map RouterCall.envelope := by
  induction calls with
  | nil => rfl
  | cons c rest ih =>
    cases c <;> simp [RouterCall.item, RouterCall.envelope, QueueItem.sent, ih]

theorem runPipe_drain (items : List QueueItem) (t : RouterState)
    (hopen : t.is_open = true) (hq : t.item_queue = items)
    (hnc : QueueItem.closeFuture ∉ items) :
    (Router.runPipe t
        (List.replicate items.length Router.LoopEvent.queueItem)).1.wire
      = t.wire ++ items.filterMap QueueItem.sent ∧
    (Router.runPipe t
        (List.replicate items.length Router.LoopEvent.queueItem)).1.item_queue
      = [] ∧
    (Router.runPipe t
        (List.replicate items.length Router.LoopEvent.queueItem)).2 = none := by
  induction items generalizing t with
  | nil => simp [Router.runPipe, hq]
  | cons i rest ih =>
    have hi : ∃ e, QueueItem.sent i = some e := by
      cases i with
      | closeFuture => exact absurd (List.mem_cons_self _ _) hnc
      | sendResponse env => exact ⟨env, rfl⟩
      | sendThenReceiveResponse env => exact ⟨env, rfl⟩
    obtain ⟨e, he⟩ := hi
    have hstep := pipe_step_send_head t i rest e hopen hq he
    have h1 : Router.runPipe t
        (List.replicate (i :: rest).length Router.LoopEvent.queueItem)
        = Router.runPipe { t with item_queue := rest, wire := t.wire ++ [e] }
            (List.replicate rest.length Router.LoopEvent.queueItem) := by
      rw [List.length_cons, List.replicate_succ]
      simp only [Router.runPipe, hstep]
    have ihh := ih { t with item_queue := rest, wire := t.wire ++ [e] }
      hopen rfl (fun hmem => hnc (List.mem_cons_of_mem _ hmem))
    rw [h1]
    refine ⟨?_, ihh.2.1, ihh.2.2⟩
    rw [ihh.1]
    simp [List.filterMap_cons, he, List.append_assoc]

/-! ## Claim theorems -/

/-- C1: for an outbound request sent via `Router.send` with a fresh
`packet_id`, the first inbound envelope with `type=response` and that
`packet_id` resolves the request's completion future exactly once with the
envelope's `data` field and removes the pending slot; a later inbound
response carrying the same id finds no slot and is rejected as
`UnknownPacket`. -/
theorem send_then_first_response_resolves_once (s : RouterState)
    (pid : String) (req d d' : JVal) (hfresh : pid ∉ s.futures) :
    ∃ s2,
      Router.resolve_future (Router.send s pid req)
          ⟨some pid, some "response", some d⟩ = .ok s2 ∧
      s2.resolved = s.resolved ++ [(pid, d)] ∧
      pid ∉ s2.futures ∧
      Router.resolve_future s2 ⟨some pid, some "response", some d'⟩ =
        .error ZErr.unknownPacket := by
  have hmem : pid ∈ (Router.send s pid req).futures := by simp
  have herase : ((Router.send s pid req).futures).erase pid = s.futures := by
    rw [Router.send_futures]
    exact erase_snoc_self pid s.futures hfresh
  refine ⟨{ Router.send s pid req with
      futures := s.futures
      resolved := s.resolved ++ [(pid, d)] }, ?_, rfl, hfresh, ?_⟩
  · simp [Router.resolve_future, hmem, herase]
    exact erase_snoc_self pid s.futures hfresh
  · simp [Router.resolve_future, hfresh]

/-- Witness for C1 at a concrete input. -/
theorem send_then_first_response_resolves_once_witness :
    ∃ s2,
      Router.resolve_future (Router.send Router.init "aa" JVal.null)
          ⟨some "aa", some "response", some (JVal.str "ok")⟩ = .ok s2 ∧
      s2.resolved = Router.init.resolved ++ [("aa", JVal.str "ok")] ∧
      "aa" ∉ s2.futures ∧
      Router.resolve_future s2 ⟨some "aa", some "response", some JVal.null⟩ =
        .error ZErr.unknownPacket :=
  send_then_first_response_resolves_once Router.init "aa" JVal.null
    (JVal.str "ok") JVal.null (by decide)

/-- C2 counterexample: the claim says that after an inbound response whose
`packet_id` has no pending slot the pipe loop keeps servicing subsequent
queue items.  On the code, the `UnknownPacket` raised by `_resolve_future`
escapes to the `except` clause wrapping the whole `while` loop, so the loop
exits (returning `None`) and the already queued `SEND_RESPONSE` item is
never written to the wire: the run ends immediately with the queue item
still enqueued and the wire empty. -/
theorem unknown_packet_exits_pipe_cex :
    Router.runPipe
      { Router.init with
        futures := ["aa"]
        item_queue := [QueueItem.sendResponse ⟨"bb", "response", JVal.null⟩] }
      [Router.LoopEvent.wsMsg ⟨some "zz", some "response", some JVal.null⟩,
        Router.LoopEvent.queueItem]
    = ({ Router.init with
        futures := ["aa"]
        item_queue := [QueueItem.sendResponse ⟨"bb", "response", JVal.null⟩] },
      some Router.PipeOutcome.exitNone) := by
  rfl

/-- C2 amended: when `_resolve_future` raises on an inbound frame (unknown
response id, or a missing `packet_id`/`type`/`data` field), the exception
escapes the per-iteration handling and terminates the pipe loop — the
catch-all logs it and `_handle_pipe` returns `None` — leaving the Router
state (pending slots included) exactly as it was. -/
theorem unknown_packet_terminates_pipe_loop (s : RouterState) (p : RawPacket)
    (err : ZErr) (hopen : s.is_open = true)
    (herr : Router.resolve_future s p = .error err) :
    Router.pipe_step s (Router.LoopEvent.wsMsg p) =
      Router.StepResult.exit s Router.PipeOutcome.exitNone := by
  simp [Router.pipe_step, hopen, herr]

/-- Witness for the C2 amended theorem at a concrete input. -/
theorem unknown_packet_terminates_pipe_loop_witness :
    Router.pipe_step Router.init
        (Router.LoopEvent.wsMsg ⟨some "zz", some "response", some JVal.null⟩) =
      Router.StepResult.exit Router.init Router.PipeOutcome.exitNone :=
  unknown_packet_terminates_pipe_loop Router.init
    ⟨some "zz", some "response", some JVal.null⟩ ZErr.unknownPacket rfl rfl

/-- C3 counterexample: the claim says a transport receive error completes
every pending slot with a `ConnectionLost` failure and resolves
`block_until_closed`.  On the code no `ConnectionLost` exists; the raised
transport error is logged by the catch-all and the pipe loop exits with the
pending slot `"aa"` still pending (nothing was ever set on its future) and
the block future unresolved. -/
theorem ws_error_leaves_futures_pending_cex :
    Router.runPipe { Router.init with futures := ["aa"] }
        [Router.LoopEvent.wsErr]
      = ({ Router.init with futures := ["aa"] },
        some Router.PipeOutcome.exitNone) ∧
    ({ Router.init with futures := ["aa"] } : RouterState).resolved = [] ∧
    ({ Router.init with futures := ["aa"] } : RouterState).block_resolved
      = false := by
  exact ⟨rfl, rfl, rfl⟩

/-- C3 amended: a transport error during receive is terminal for the pipe
loop — the exception is caught by the clause wrapping the loop and
`_handle_pipe` returns `None` — but pending slots are left pending (none is
completed with any failure) and `_block_future` is not resolved by the
loop; on the client side `_handle_ws` reconnects (with the default
`retry_on_exception=True`, `max_retries=3`, the first failures continue the
loop) and resolves the block future only once the attempt count exceeds the
retry budget. -/
theorem ws_error_exits_without_failing_slots (s : RouterState)
    (hopen : s.is_open = true) :
    Router.pipe_step s Router.LoopEvent.wsErr =
      Router.StepResult.exit s Router.PipeOutcome.exitNone ∧
    Router.handle_ws_post true 3 s Router.PipeOutcome.exitNone 0 =
      Sum.inl (s, 1) ∧
    Router.handle_ws_post true 3 s Router.PipeOutcome.exitNone 3 =
      Sum.inr { s with block_resolved := true } := by
  refine ⟨by simp [Router.pipe_step, hopen], ?_, ?_⟩
  · simp [Router.handle_ws_post]
  · simp [Router.handle_ws_post]

/-- Witness for the C3 amended theorem at a concrete input. -/
theorem ws_error_exits_without_failing_slots_witness :
    Router.pipe_step Router.init Router.LoopEvent.wsErr =
      Router.StepResult.exit Router.init Router.PipeOutcome.exitNone ∧
    Router.handle_ws_post true 3 Router.init Router.PipeOutcome.exitNone 0 =
      Sum.inl (Router.init, 1) ∧
    Router.handle_ws_post true 3 Router.init Router.PipeOutcome.exitNone 3 =
      Sum.inr { Router.init with block_resolved := true } :=
  ws_error_exits_without_failing_slots Router.init rfl

/-- C4 counterexample: the claim says that once the Router is closed every
further `send`/`send_response` call fails rather than enqueuing.  On the
code neither method checks `__is_open` nor raises: called on a closed
Router they still record the pending slot and enqueue the item. -/
theorem closed_send_still_enqueues_cex :
    (Router.send { Router.init with is_open := false } "pp" JVal.null).item_queue
      = [QueueItem.sendThenReceiveResponse ⟨"pp", "request", JVal.null⟩] ∧
    (Router.send { Router.init with is_open := false } "pp" JVal.null).futures
      = ["pp"] ∧
    (Router.send_response { Router.init with is_open := false } "pp" none).item_queue
      = [QueueItem.sendResponse ⟨"pp", "response", JVal.obj []⟩] := by
  exact ⟨rfl, rfl, rfl⟩

/-- C4 amended: a Router transitions to closed exactly once (no continuing
pipe iteration ever changes `__is_open`; it is cleared only on the exiting
`CLOSE_FUTURE` step), but after the transition `send` and `send_response`
do not fail: they enqueue unconditionally, and nothing further is
transmitted only because the closed pipe loop processes no more events. -/
theorem closed_router_sends_enqueue (s : RouterState) (pid : String)
    (req : JVal) (d : Option JVal) (e : Router.LoopEvent)
    (hclosed : s.is_open = false) :
    (Router.send s pid req).item_queue
      = s.item_queue ++ [QueueItem.sendThenReceiveResponse ⟨pid, "request", req⟩] ∧
    (Router.send s pid req).wire = s.wire ∧
    (Router.send_response s pid d).item_queue
      = s.item_queue ++ [QueueItem.sendResponse ⟨pid, "response", d.getD (JVal.obj [])⟩] ∧
    Router.pipe_step s e = Router.StepResult.exit s Router.PipeOutcome.exitNone ∧
    (∀ (t t' : RouterState) (e' : Router.LoopEvent),
      Router.pipe_step t e' = Router.StepResult.next t' → t'.is_open = t.is_open) := by
  refine ⟨by simp, by simp, by simp, by simp [Router.pipe_step, hclosed], ?_⟩
  intro t t' e' h
  by_cases ht : t.is_open
  · cases e' with
    | wsErr => simp [Router.pipe_step, ht] at h
    | wsMsg p =>
      simp only [Router.pipe_step, ht, if_true] at h
      cases hr : Router.resolve_future t p with
      | ok s₁ =>
        rw [hr] at h
        injection h with h
        subst h
        exact resolve_future_is_open hr
      | error err => rw [hr] at h; simp at h
    | queueItem =>
      simp only [Router.pipe_step, ht, if_true] at h
      cases hqt : t.item_queue with
      | nil =>
        rw [hqt] at h
        injection h with h
        subst h
        rfl
      | cons item rest =>
        rw [hqt] at h
        cases item with
        | closeFuture => simp at h
        | sendResponse env =>
          injection h with h
          subst h
          simp [Router.dispatch_future, ht]
        | sendThenReceiveResponse env =>
          injection h with h
          subst h
          simp [Router.dispatch_future, ht]
  · simp [Router.pipe_step, ht] at h

/-- Witness for the C4 amended theorem at a concrete input. -/
theorem closed_router_sends_enqueue_witness :
    (Router.send { Router.init with is_open := false } "pp" JVal.null).item_queue
      = ({ Router.init with is_open := false } : RouterState).item_queue
        ++ [QueueItem.sendThenReceiveResponse ⟨"pp", "request", JVal.null⟩] ∧
    (Router.send { Router.init with is_open := false } "pp" JVal.null).wire
      = ({ Router.init with is_open := false } : RouterState).wire ∧
    (Router.send_response { Router.init with is_open := false } "pp" none).item_queue
      = ({ Router.init with is_open := false } : RouterState).item_queue
        ++ [QueueItem.sendResponse ⟨"pp", "response", (none : Option JVal).getD (JVal.obj [])⟩] ∧
    Router.pipe_step { Router.init with is_open := false } Router.LoopEvent.wsErr
      = Router.StepResult.exit { Router.init with is_open := false }
          Router.PipeOutcome.exitNone ∧
    (∀ (t t' : RouterState) (e' : Router.LoopEvent),
      Router.pipe_step t e' = Router.StepResult.next t' → t'.is_open = t.is_open) :=
  closed_router_sends_enqueue { Router.init with is_open := false } "pp"
    JVal.null none Router.LoopEvent.wsErr rfl

/-- C5: for every sequence of `send` and `send_response` calls issued in
program order on one Router, draining the FIFO queue through the pipe loop
writes the corresponding envelopes to the transport in exactly that order,
one `transport.send` per iteration, and the loop is still running
afterwards. -/
theorem wire_order_equals_call_order (s : RouterState)
    (calls : List RouterCall) (hopen : s.is_open = true)
    (hq : s.item_queue = []) :
    (Router.runPipe (performCalls s calls)
        (List.replicate calls.length Router.LoopEvent.queueItem)).1.wire
      = s.wire ++ calls.map RouterCall.envelope ∧
    (Router.runPipe (performCalls s calls)
        (List.replicate calls.length Router.LoopEvent.queueItem)).2 = none := by
  have hqueue : (performCalls s calls).item_queue = calls.map RouterCall.item := by
    rw [performCalls_item_queue, hq, List.nil_append]
  have hopen' : (performCalls s calls).is_open = true := by
    rw [performCalls_is_open]; exact hopen
  have hnc : QueueItem.closeFuture ∉ calls.map RouterCall.item := by
    intro h
    obtain ⟨c, -, hc⟩ := List.mem_map.mp h
    cases c <;> simp [RouterCall.item] at hc
  have hlen : calls.length = (calls.map RouterCall.item).length :=
    (List.length_map _ _).symm
  have hd := runPipe_drain (calls.map RouterCall.item) (performCalls s calls)
    hopen' hqueue hnc
  rw [hlen]
  refine ⟨?_, hd.2.2⟩
  rw [hd.1, performCalls_wire, filterMap_sent_map_item]

/-- Witness for C5 at a concrete input. -/
theorem wire_order_equals_call_order_witness :
    (Router.runPipe
        (performCalls Router.init
          [RouterCall.request "a" JVal.null, RouterCall.response "b" none])
        (List.replicate
          ([RouterCall.request "a" JVal.null,
            RouterCall.response "b" none].length)
          Router.LoopEvent.queueItem)).1.wire
      = Router.init.wire ++
        [RouterCall.request "a" JVal.null,
          RouterCall.response "b" none].map RouterCall.envelope ∧
    (Router.runPipe
        (performCalls Router.init
          [RouterCall.request "a" JVal.null, RouterCall.response "b" none])
        (List.replicate
          ([RouterCall.request "a" JVal.null,
            RouterCall.response "b" none].length)
          Router.LoopEvent.queueItem)).2 = none :=
  wire_order_equals_call_order Router.init
    [RouterCall.request "a" JVal.null, RouterCall.response "b" none] rfl rfl

/-- C6 counterexample: the claim says `close()` leaves `block_until_closed`
resolved for server-connected Routers too.  For a Router started with
`connect_server` only `_handle_pipe` runs: after `close()` the loop
consumes the sentinel and exits Closed, but nothing ever sets
`_block_future`, which stays unresolved. -/
theorem server_close_block_unresolved_cex :
    (Router.runPipe (Router.close Router.init) [Router.LoopEvent.queueItem]).2
      = some Router.PipeOutcome.exitLiteral ∧
    (Router.runPipe (Router.close Router.init)
        [Router.LoopEvent.queueItem]).1.is_open = false ∧
    (Router.runPipe (Router.close Router.init)
        [Router.LoopEvent.queueItem]).1.block_resolved = false := by
  exact ⟨rfl, rfl, rfl⟩

/-- C6 amended: calling `close()` N times (N ≥ 1) enqueues N sentinels; the
pipe loop observes the first, stops reading and leaves the Router Closed,
regardless of N.  `_block_future` is not touched by `close` or the pipe
loop itself: it resolves only on the client side, where `_handle_ws`
observes the `_EXIT_LITERAL` return, breaks, and sets the block future; a
server-connected Router (pipe loop alone) is left with it unresolved. -/
theorem close_idempotent_amended (s : RouterState) (n : Nat)
    (hopen : s.is_open = true) (hq : s.item_queue = []) (hn : 1 ≤ n) :
    ∃ s', Router.runPipe (Router.closeN n s) [Router.LoopEvent.queueItem]
        = (s', some Router.PipeOutcome.exitLiteral) ∧
      s'.is_open = false ∧
      s'.block_resolved = s.block_resolved ∧
      Router.handle_ws_post true 3 s' Router.PipeOutcome.exitLiteral 0
        = Sum.inr { s' with block_resolved := true } := by
  obtain ⟨m, rfl⟩ : ∃ m, n = m + 1 := ⟨n - 1, (Nat.succ_pred_eq_of_pos hn).symm⟩
  have hq' : (Router.closeN (m + 1) s).item_queue
      = QueueItem.closeFuture :: List.replicate m QueueItem.closeFuture := by
    rw [Router.closeN_item_queue, hq, List.nil_append, List.replicate_succ]
  have hopen' : (Router.closeN (m + 1) s).is_open = true := by
    rw [Router.closeN_is_open]; exact hopen
  have hstep := pipe_step_close_head (Router.closeN (m + 1) s) _ hopen' hq'
  refine ⟨{ Router.closeN (m + 1) s with
      item_queue := List.replicate m QueueItem.closeFuture
      is_open := false }, ?_, rfl, ?_, ?_⟩
  · simp only [Router.runPipe, hstep]
  · simp [Router.closeN_block_resolved]
  · simp [Router.handle_ws_post]

/-- Witness for the C6 amended theorem at a concrete input. -/
theorem close_idempotent_amended_witness :
    ∃ s', Router.runPipe (Router.closeN 2 Router.init)
        [Router.LoopEvent.queueItem]
        = (s', some Router.PipeOutcome.exitLiteral) ∧
      s'.is_open = false ∧
      s'.block_resolved = Router.init.block_resolved ∧
      Router.handle_ws_post true 3 s' Router.PipeOutcome.exitLiteral 0
        = Sum.inr { s' with block_resolved := true } :=
  close_idempotent_amended Router.init 2 rfl rfl (by decide)

/-- C7 counterexample: the claim says `Client.request` returns the `data`
of a `SUCCESS_RESPONSE` payload, raises `RequestFailed` on
`FAILURE_RESPONSE` and `UnhandledWebsocketType` otherwise.  On the code the
only accepted payload type is `"CLIENT_REQUEST_RESPONSE"`: both a
`SUCCESS_RESPONSE` and a `FAILURE_RESPONSE` payload are rejected with a
plain `ValueError`. -/
theorem client_request_response_types_cex :
    (Client.request Router.init "p1" "id" "r" JVal.null
        ⟨"FAILURE_RESPONSE", JVal.str "boom"⟩).2 = .error ZErr.valueError ∧
    (Client.request Router.init "p2" "id" "r" JVal.null
        ⟨"SUCCESS_RESPONSE", JVal.str "yay"⟩).2 = .error ZErr.valueError := by
  exact ⟨rfl, rfl⟩

/-- C7 amended: `Client.request` wraps a `RequestPacket` inside a
`ClientToServerPacket` handed to the Router's `send` (recording the pending
slot and enqueuing the request envelope), and after awaiting the completion
returns the payload's `data` field exactly when the payload type is
`"CLIENT_REQUEST_RESPONSE"`; every other payload type — including
`SUCCESS_RESPONSE` and `FAILURE_RESPONSE` — raises `ValueError`. -/
theorem client_request_amended (s : RouterState)
    (pid identifier route : String) (args : JVal) (resp : ClientPacket) :
    (Client.request s pid identifier route args resp).1.item_queue
      = s.item_queue ++ [QueueItem.sendThenReceiveResponse
          ⟨pid, "request", clientToServerPayload identifier route args⟩] ∧
    (Client.request s pid identifier route args resp).1.futures
      = s.futures ++ [pid] ∧
    (resp.type = "CLIENT_REQUEST_RESPONSE" →
      (Client.request s pid identifier route args resp).2 = .ok resp.data) ∧
    (resp.type ≠ "CLIENT_REQUEST_RESPONSE" →
      (Client.request s pid identifier route args resp).2
        = .error ZErr.valueError) := by
  refine ⟨?_, ?_, ?_, ?_⟩
  · unfold Client.request
    split <;> simp
  · unfold Client.request
    split <;> simp
  · intro h; simp [Client.request, h]
  · intro h; simp [Client.request, h]

/-- Witness for the C7 amended theorem at a concrete input. -/
theorem client_request_amended_witness :
    (Client.request Router.init "p1" "id" "r" JVal.null
        ⟨"CLIENT_REQUEST_RESPONSE", JVal.str "v"⟩).1.item_queue
      = Router.init.item_queue ++ [QueueItem.sendThenReceiveResponse
          ⟨"p1", "request", clientToServerPayload "id" "r" JVal.null⟩] ∧
    (Client.request Router.init "p1" "id" "r" JVal.null
        ⟨"CLIENT_REQUEST_RESPONSE", JVal.str "v"⟩).2 = .ok (JVal.str "v") :=
  ⟨(client_request_amended Router.init "p1" "id" "r" JVal.null
      ⟨"CLIENT_REQUEST_RESPONSE", JVal.str "v"⟩).1,
    (client_request_amended Router.init "p1" "id" "r" JVal.null
      ⟨"CLIENT_REQUEST_RESPONSE", JVal.str "v"⟩).2.2.1 rfl⟩

/-- C8 counterexample: the claim says that on an override-key admission the
prior Router for the identifier is closed.  Starting from a server whose
table maps `"one"` to router `"r1"` in its freshly initialised state, an
IDENTIFY for `"one"` presenting the configured override key `"k"`
succeeds and rebinds the table entry to the new router `"r2"`, but the
prior router `"r1"` is left exactly as it was: its queue holds no
`CLOSE_FUTURE` sentinel and it is still open — `parse_identify` never
called `close` on it. -/
theorem override_eviction_no_close_cex :
    (Server.parse_identify
        ⟨[("r1", Router.init)], [("one", "r1")], "", "k"⟩
        ⟨"p0", "one", "IDENTIFY", ⟨"", some "k"⟩⟩ "r2").2 = .ok "one" ∧
    alookup "one" (Server.parse_identify
        ⟨[("r1", Router.init)], [("one", "r1")], "", "k"⟩
        ⟨"p0", "one", "IDENTIFY", ⟨"", some "k"⟩⟩ "r2").1.connections
      = some "r2" ∧
    alookup "r1" (Server.parse_identify
        ⟨[("r1", Router.init)], [("one", "r1")], "", "k"⟩
        ⟨"p0", "one", "IDENTIFY", ⟨"", some "k"⟩⟩ "r2").1.routers
      = some Router.init ∧
    Router.init.item_queue = [] ∧ Router.init.is_open = true := by
  exact ⟨rfl, rfl, rfl, rfl, rfl⟩

/-- C8 amended: when `parse_identify` admits a second connection for an
identifier already in the table and the presented `override_key` matches
the server's configured override key, the table entry is replaced in place
— the table ends with exactly one entry for that identifier, bound to the
new Router — but the prior Router is not closed: its heap entry is left
untouched. -/
theorem parse_identify_override_amended (sv : ServerState)
    (p : IdentifyEnvelope) (newRid oldRid : String)
    (htype : p.ws_type = "IDENTIFY")
    (hsecret : p.data.secret_key = sv.secret_key)
    (hov : p.data.override_key = some sv.override_key)
    (hovne : sv.override_key ≠ "")
    (_hconn : alookup p.identifier sv.connections = some oldRid)
    (hnd : (sv.connections.map Prod.fst).Nodup)
    (hfresh : oldRid ≠ newRid) :
    (Server.parse_identify sv p newRid).2 = .ok p.identifier ∧
    alookup p.identifier (Server.parse_identify sv p newRid).1.connections
      = some newRid ∧
    countk p.identifier (Server.parse_identify sv p newRid).1.connections = 1 ∧
    alookup oldRid (Server.parse_identify sv p newRid).1.routers
      = alookup oldRid sv.routers := by
  have h1 : pyTruthy p.data.override_key = true := by
    rw [hov]
    simpa [pyTruthy] using hovne
  have h2 : (p.data.override_key != some sv.override_key) = false := by
    rw [hov]; simp
  have hcond : ((alookup p.identifier sv.connections).isSome &&
      (!pyTruthy p.data.override_key ||
        p.data.override_key != some sv.override_key)) = false := by
    rw [h1, h2]; simp
  have htype' : (p.ws_type != "IDENTIFY") = false := by
    rw [htype]; simp
  have hsecret' : (p.data.secret_key != sv.secret_key) = false := by
    rw [hsecret]; simp
  have hred : Server.parse_identify sv p newRid =
      ({ sv with
          routers := aupdate newRid
            (fun r => Router.send_response r p.packet_id
              (some (identifyAck p.identifier)))
            (sv.routers ++
              [(newRid, { Router.init with has_receive_handler := true })])
          connections := ainsert p.identifier newRid sv.connections },
        .ok p.identifier) := by
    unfold Server.parse_identify
    rw [htype', hsecret', hcond]
    simp
  rw [hred]
  refine ⟨rfl, ?_, ?_, ?_⟩
  · exact alookup_ainsert_self p.identifier newRid sv.connections
  · exact countk_ainsert_nodup p.identifier newRid sv.connections hnd
  · rw [alookup_aupdate_ne oldRid newRid hfresh,
      alookup_snoc_ne oldRid newRid _ hfresh]

/-- Witness for the C8 amended theorem at a concrete input. -/
theorem parse_identify_override_amended_witness :
    (Server.parse_identify
        ⟨[("r1", Router.init)], [("one", "r1")], "", "k"⟩
        ⟨"p0", "one", "IDENTIFY", ⟨"", some "k"⟩⟩ "r2").2 = .ok "one" ∧
    alookup "one" (Server.parse_identify
        ⟨[("r1", Router.init)], [("one", "r1")], "", "k"⟩
        ⟨"p0", "one", "IDENTIFY", ⟨"", some "k"⟩⟩ "r2").1.connections
      = some "r2" ∧
    countk "one" (Server.parse_identify
        ⟨[("r1", Router.init)], [("one", "r1")], "", "k"⟩
        ⟨"p0", "one", "IDENTIFY", ⟨"", some "k"⟩⟩ "r2").1.connections = 1 ∧
    alookup "r1" (Server.parse_identify
        ⟨[("r1", Router.init)], [("one", "r1")], "", "k"⟩
        ⟨"p0", "one", "IDENTIFY", ⟨"", some "k"⟩⟩ "r2").1.routers
      = alookup "r1"
          (⟨[("r1", Router.init)], [("one", "r1")], "", "k"⟩ : ServerState).routers :=
  parse_identify_override_amended
    ⟨[("r1", Router.init)], [("one", "r1")], "", "k"⟩
    ⟨"p0", "one", "IDENTIFY", ⟨"", some "k"⟩⟩ "r2" "r1"
    rfl rfl rfl (by decide) rfl (by decide) (by decide)

/-- C9 counterexample: the claim says the Router emits exactly one
congestion warning per crossing of the depth-50 threshold.  Starting with
50 queued items and no warnings, two consecutive `send` calls constitute a
single crossing (depth 51 then 52) yet two warnings are logged:
`_check_for_congestion` warns on every enqueue while the depth exceeds
50. -/
theorem congestion_warning_per_enqueue_cex :
    (Router.send (Router.send
        { Router.init with
          item_queue :=
            List.replicate 50 (QueueItem.sendResponse ⟨"q", "response", JVal.null⟩) }
        "a" JVal.null) "b" JVal.null).warnings = 2 := by
  rfl

/-- C9 amended: every enqueue (`send` as well as `send_response`) that
leaves the outbound queue at depth ≥ 51 logs a congestion warning — one
warning per enqueue above the threshold, not one per crossing — and
enqueueing is never throttled or blocked: the item is always appended. -/
theorem congestion_warning_amended (s : RouterState) (pid : String)
    (d : JVal) (o : Option JVal) :
    (Router.send s pid d).item_queue
      = s.item_queue ++ [QueueItem.sendThenReceiveResponse ⟨pid, "request", d⟩] ∧
    (Router.send s pid d).warnings
      = s.warnings + (if 50 < s.item_queue.length + 1 then 1 else 0) ∧
    (Router.send_response s pid o).item_queue
      = s.item_queue ++ [QueueItem.sendResponse ⟨pid, "response", o.getD (JVal.obj [])⟩] ∧
    (Router.send_response s pid o).warnings
      = s.warnings + (if 50 < s.item_queue.length + 1 then 1 else 0) := by
  refine ⟨by simp, ?_, by simp, ?_⟩
  · rw [Router.send, Router.check_for_congestion_warnings]
    simp
  · rw [Router.send_response, Router.check_for_congestion_warnings]
    simp

/-- C10: `Server.disconnect` on an identifier absent from the connection
table raises `KeyError` (`self._connections.pop(identifier)` with no
default) — not `UnknownClient` and not a silent no-op; on a present
identifier it removes the entry and closes that Router. -/
theorem disconnect_spec (sv : ServerState) (identifier : String)
    (hnd : (sv.connections.map Prod.fst).Nodup) :
    (alookup identifier sv.connections = none →
      Server.disconnect sv identifier = .error ZErr.keyError) ∧
    ∀ rid, alookup identifier sv.connections = some rid →
      ∃ sv', Server.disconnect sv identifier = .ok sv' ∧
        alookup identifier sv'.connections = none ∧
        alookup rid sv'.routers = (alookup rid sv.routers).map Router.close := by
  constructor
  · intro h
    simp [Server.disconnect, h]
  · intro rid h
    refine ⟨{ sv with
        connections := aerase identifier sv.connections
        routers := aupdate rid Router.close sv.routers }, ?_, ?_, ?_⟩
    · simp [Server.disconnect, h]
    · exact alookup_aerase_self identifier sv.connections hnd
    · exact alookup_aupdate_self rid Router.close sv.routers

/-- Witness for C10 at concrete inputs, exercising both the absent and the
present branch. -/
theorem disconnect_spec_witness :
    Server.disconnect
        ⟨[("r1", Router.init)], [("one", "r1")], "", "k"⟩ "two"
      = .error ZErr.keyError ∧
    ∃ sv', Server.disconnect
        ⟨[("r1", Router.init)], [("one", "r1")], "", "k"⟩ "one" = .ok sv' ∧
      alookup "one" sv'.connections = none ∧
      alookup "r1" sv'.routers
        = (alookup "r1"
            (⟨[("r1", Router.init)], [("one", "r1")], "", "k"⟩ : ServerState).routers).map
            Router.close :=
  ⟨(disconnect_spec ⟨[("r1", Router.init)], [("one", "r1")], "", "k"⟩ "two"
      (by decide)).1 rfl,
    (disconnect_spec ⟨[("r1", Router.init)], [("one", "r1")], "", "k"⟩ "one"
      (by decide)).2 "r1" rfl⟩

end Zonis
